import Mathlib

/-!
Shallow embedding of the control / sensing core of the `reactors_czlab`
repository, together with theorems settling the frozen claims about it.

Conventions of the embedding:
* Python floats are modelled by `ℚ` (all constants appearing in the code
  and in the claims are exactly representable, and every comparison or
  clamp below is order-theoretic, so the rational model agrees with the
  float execution on the inputs considered).
* A Python exception is modelled by the `PyErr` type; a method that can
  raise returns `Except PyErr α` together with the (possibly mutated)
  object state, mirroring CPython's in-place mutation up to the raise
  point.
* Attributes that a constructor may leave unset (CPython raises
  `AttributeError` on first access) are modelled as `Option` fields.
-/

namespace ReactorsCzlab

/-- Python exception kinds raised by the modelled code paths. -/
inductive PyErr where
  | attributeError
  | zeroDivisionError
  | typeError
  | nameError
  | keyError
  | indexError
  | uaStatusCodeError
  | modbusError
  deriving DecidableEq, Repr

deriving instance DecidableEq for Except

/-- View of the `Sensor` object as consumed by the controllers in
`core/control.py`: `sensor.channels[0].value` and
`sensor.timer.elapsed_time`. -/
structure SensorView where
  channel0 : ℚ
  elapsed_time : ℚ
  deriving DecidableEq, Repr

/-- Python division: `a / b` raises `ZeroDivisionError` when `b == 0`
(regardless of the numerator, `0.0 / 0.0` also raises). -/
def pydiv (a b : ℚ) : Except PyErr ℚ :=
  if b = 0 then .error .zeroDivisionError else .ok (a / b)

/-! ### `_PidControl` (src/reactors_czlab/core/control.py, lines 306-421) -/

/-- State of a `_PidControl` object.  `sampling_event` is an `Option`
because `_PidControl.__init__` never assigns `self._sampling_event`
(unlike the Manual/Timer/OnBoundaries constructors); reading it before
`on_timer_callback` has run raises `AttributeError`. -/
structure PidState where
  setpoint : ℚ
  kp : ℚ
  ki : ℚ
  kd : ℚ
  min_val : ℚ
  max_val : ℚ
  value : ℚ
  last_error : ℚ
  integral_sum : ℚ
  sampling_event : Option Bool
  deriving DecidableEq, Repr

/-- `_PidControl.__init__(setpoint, gains=None, limits=None)`:
defaults `gains = [100, 0.01, 0]`, `limits = [0, 4095]`, sets
`value = 0`, `_last_error = 0`, `_integral_sum = 0` and does NOT set
`_sampling_event`. -/
def pidInit (setpoint : ℚ) (gains : Option (ℚ × ℚ × ℚ))
    (limits : Option (ℚ × ℚ)) : PidState :=
  let g := gains.getD (100, 1/100, 0)
  let l := limits.getD (0, 4095)
  { setpoint := setpoint
    kp := g.1, ki := g.2.1, kd := g.2.2
    min_val := l.1, max_val := l.2
    value := 0
    last_error := 0
    integral_sum := 0
    sampling_event := none }

/-- `_Control.on_timer_callback` (control.py lines 106-108):
`self._sampling_event = True`. -/
def pidOnTimerCallback (s : PidState) : PidState :=
  { s with sampling_event := some true }

/-- `_PidControl.get_value(sensor)` (control.py lines 385-421).
Returns the computed value and the mutated object state; mutations
performed before a raise are retained, as in CPython. -/
def pidGetValue (s : PidState) (sensor : Option SensorView) :
    Except PyErr ℚ × PidState :=
  match sensor with
  | none => (.error .attributeError, s)
  | some sv =>
    match s.sampling_event with
    | none => (.error .attributeError, s)
    | some false => (.ok s.value, s)
    | some true =>
      let s1 := { s with sampling_event := some false }
      let var := sv.channel0
      let dt := sv.elapsed_time
      let error := s1.setpoint - var
      let d_error := error - s1.last_error
      let s2 := { s1 with last_error := error }
      let p_term := s2.kp * error
      let i_term := s2.ki * error * dt
      match pydiv (s2.kd * d_error) dt with
      | .error e => (.error e, s2)
      | .ok d_term =>
        let isum := s2.integral_sum + i_term
        let isum := max s2.min_val (min isum s2.max_val)
        let output := p_term + isum + d_term
        let v := max s2.min_val (min output s2.max_val)
        (.ok v, { s2 with integral_sum := isum, value := v })

/-- One tick of the anti-windup scenario of the spec: the sensor timer
fires (`on_timer_callback`), then the controller is evaluated against a
sensor stuck at `0` with `elapsed_time = 1`. -/
def pidScenarioStep (s : PidState) : PidState :=
  (pidGetValue (pidOnTimerCallback s) (some ⟨0, 1⟩)).2

/-- Unfolding of one scenario tick on an arbitrary PID state. -/
theorem pidScenarioStep_def (s : PidState) :
    pidScenarioStep s =
      { s with
        sampling_event := some false
        last_error := s.setpoint
        integral_sum :=
          max s.min_val (min (s.integral_sum + s.ki * s.setpoint) s.max_val)
        value :=
          max s.min_val (min (s.kp * s.setpoint
            + max s.min_val (min (s.integral_sum + s.ki * s.setpoint) s.max_val)
            + s.kd * (s.setpoint - s.last_error)) s.max_val) } := by
  simp [pidScenarioStep, pidOnTimerCallback, pidGetValue, pydiv]

/-- Projection lemmas for one scenario tick. -/
theorem pidScenarioStep_proj (s : PidState) :
    (pidScenarioStep s).setpoint = s.setpoint ∧
    (pidScenarioStep s).kp = s.kp ∧
    (pidScenarioStep s).ki = s.ki ∧
    (pidScenarioStep s).kd = s.kd ∧
    (pidScenarioStep s).min_val = s.min_val ∧
    (pidScenarioStep s).max_val = s.max_val ∧
    (pidScenarioStep s).integral_sum
      = max s.min_val (min (s.integral_sum + s.ki * s.setpoint) s.max_val) ∧
    (pidScenarioStep s).value
      = max s.min_val (min (s.kp * s.setpoint
          + max s.min_val (min (s.integral_sum + s.ki * s.setpoint) s.max_val)
          + s.kd * (s.setpoint - s.last_error)) s.max_val) := by
  rw [pidScenarioStep_def]
  exact ⟨rfl, rfl, rfl, rfl, rfl, rfl, rfl, rfl⟩

/-- Clamped-accumulation arithmetic for the scenario integral. -/
theorem clampAccum (n : ℕ) :
    max (0 : ℚ) (min (min ((n : ℚ) * (7/20)) 4095 + 7/20) 4095)
      = min (((n : ℚ) + 1) * (7/20)) 4095 := by
  rcases le_total ((n : ℚ) * (7/20)) 4095 with h | h
  · rw [min_eq_left h, show ((n : ℚ) + 1) * (7/20)
        = (n : ℚ) * (7/20) + 7/20 by ring]
    refine max_eq_right (le_min ?_ (by norm_num))
    positivity
  · rw [min_eq_right h, min_eq_right (by norm_num),
      min_eq_right (by nlinarith), max_eq_right (by norm_num)]

/-- Fields of the iterated scenario state: gains and limits never change
and the integral accumulates `0.35` per tick, clamped at `4095`. -/
theorem pidIterate_fields (k : ℕ) :
    (pidScenarioStep^[k] (pidInit 35 none none)).setpoint = 35 ∧
    (pidScenarioStep^[k] (pidInit 35 none none)).kp = 100 ∧
    (pidScenarioStep^[k] (pidInit 35 none none)).ki = 1/100 ∧
    (pidScenarioStep^[k] (pidInit 35 none none)).kd = 0 ∧
    (pidScenarioStep^[k] (pidInit 35 none none)).min_val = 0 ∧
    (pidScenarioStep^[k] (pidInit 35 none none)).max_val = 4095 ∧
    (pidScenarioStep^[k] (pidInit 35 none none)).integral_sum
      = min ((k : ℚ) * (7/20)) 4095 := by
  induction k with
  | zero => exact ⟨rfl, rfl, rfl, rfl, rfl, rfl, by norm_num [pidInit]⟩
  | succ n ih =>
    obtain ⟨h1, h2, h3, h4, h5, h6, h7⟩ := ih
    obtain ⟨p1, p2, p3, p4, p5, p6, p7, p8⟩ :=
      pidScenarioStep_proj (pidScenarioStep^[n] (pidInit 35 none none))
    rw [Function.iterate_succ_apply']
    refine ⟨by rw [p1, h1], by rw [p2, h2], by rw [p3, h3], by rw [p4, h4],
      by rw [p5, h5], by rw [p6, h6], ?_⟩
    rw [p7, h1, h3, h5, h6, h7]
    have := clampAccum n
    rw [show (1 : ℚ)/100 * 35 = 7/20 by norm_num]
    push_cast
    exact this

/-- Final state of the 100000-tick anti-windup scenario. -/
theorem pidFinal :
    (pidScenarioStep^[100000] (pidInit 35 none none)).integral_sum = 4095 ∧
    (pidScenarioStep^[100000] (pidInit 35 none none)).value = 4095 := by
  obtain ⟨h1, h2, h3, h4, h5, h6, h7⟩ := pidIterate_fields 99999
  obtain ⟨q1, q2, q3, q4, q5, q6, q7⟩ := pidIterate_fields 100000
  have hint : (pidScenarioStep^[100000] (pidInit 35 none none)).integral_sum
      = 4095 := by
    rw [q7]
    norm_num
  refine ⟨hint, ?_⟩
  obtain ⟨p1, p2, p3, p4, p5, p6, p7, p8⟩ :=
    pidScenarioStep_proj (pidScenarioStep^[99999] (pidInit 35 none none))
  have hiter : pidScenarioStep^[100000] (pidInit 35 none none)
      = pidScenarioStep (pidScenarioStep^[99999] (pidInit 35 none none)) := by
    rw [show (100000 : ℕ) = 99999 + 1 from rfl, Function.iterate_succ_apply']
  rw [hiter] at hint ⊢
  rw [p8, h1, h2, h3, h4, h5, h6]
  rw [p7, h1, h3, h5, h6] at hint
  rw [hint, zero_mul, add_zero]
  norm_num

/-- C1: the claim states that PID evaluation is defined when the
effective sample period `dt` is `0`, returning
`kp*error + clamp(integral_sum)` with a zero derivative term.  In the
code (`_PidControl.get_value`, control.py line 402) the derivative term
divides `kd * d_error` by `dt` with no guard, so with a pending
sampling event and `sensor.timer.elapsed_time = 0` the evaluation
raises `ZeroDivisionError` instead. -/
theorem C1_pid_dt_zero_raises (s : PidState) (sv : SensorView)
    (hse : s.sampling_event = some true) (h0 : sv.elapsed_time = 0) :
    (pidGetValue s (some sv)).1 = .error .zeroDivisionError := by
  simp [pidGetValue, hse, pydiv, h0]

/-- Witness for `C1_pid_dt_zero_raises` at a default-configured PID
controller whose timer callback has fired. -/
theorem C1_pid_dt_zero_raises_witness :
    (pidGetValue (pidOnTimerCallback (pidInit 35 none none))
        (some ⟨0, 0⟩)).1 = .error .zeroDivisionError :=
  C1_pid_dt_zero_raises _ _ rfl rfl

/-- C5: PID anti-windup.  After every completed PID evaluation the
internal integral sum lies within `[min_val, max_val]` (it is clamped
before being summed into the output); and in the spec scenario — gains
`(100, 0.01, 0)`, limits `(0, 4095)`, setpoint `35`, measured variable
stuck at `0`, `dt = 1` — after 100000 evaluations the integral sum is
exactly `4095`, not greater, and the output equals `4095`. -/
theorem C5_pid_antiwindup :
    (∀ (s : PidState) (sv : SensorView) (r : ℚ) (s' : PidState),
        s.min_val ≤ s.max_val → s.sampling_event = some true →
        pidGetValue s (some sv) = (.ok r, s') →
        s.min_val ≤ s'.integral_sum ∧ s'.integral_sum ≤ s.max_val) ∧
    (pidScenarioStep^[100000] (pidInit 35 none none)).integral_sum = 4095 ∧
    (pidScenarioStep^[100000] (pidInit 35 none none)).value = 4095 := by
  refine ⟨?_, pidFinal.1, pidFinal.2⟩
  intro s sv r s' hle hse heq
  simp only [pidGetValue, hse, pydiv] at heq
  by_cases h0 : sv.elapsed_time = 0
  · simp [h0] at heq
  · rw [if_neg h0, Prod.mk.injEq] at heq
    obtain ⟨-, hs⟩ := heq
    subst hs
    exact ⟨le_max_left _ _, max_le hle (min_le_right _ _)⟩

/-- Witness for the invariant half of `C5_pid_antiwindup` at a
default-configured controller after one timer callback. -/
theorem C5_pid_antiwindup_witness :
    (0 : ℚ) ≤ 7/20 ∧ (7/20 : ℚ) ≤ 4095 :=
  C5_pid_antiwindup.1 (pidOnTimerCallback (pidInit 35 none none)) ⟨0, 1⟩
    (70007/20)
    { setpoint := 35, kp := 100, ki := 1/100, kd := 0, min_val := 0,
      max_val := 4095, value := 70007/20, last_error := 35,
      integral_sum := 7/20, sampling_event := some false }
    (by norm_num [pidOnTimerCallback, pidInit]) rfl
    (by norm_num [pidGetValue, pidOnTimerCallback, pidInit, pydiv])

/-- C10: `_PidControl.__init__` never creates `_sampling_event`, so a
fresh PID controller fails its first `get_value(sensor)` call with
`AttributeError` for every non-None sensor (the object is not mutated),
and the attribute first exists — and evaluation first succeeds — only
after `on_timer_callback` has run. -/
theorem C10_pid_fresh_attribute (setpoint : ℚ) (gains : Option (ℚ × ℚ × ℚ))
    (limits : Option (ℚ × ℚ)) (sv : SensorView) (hdt : sv.elapsed_time ≠ 0) :
    (pidInit setpoint gains limits).sampling_event = none ∧
    pidGetValue (pidInit setpoint gains limits) (some sv)
      = (.error .attributeError, pidInit setpoint gains limits) ∧
    (pidOnTimerCallback (pidInit setpoint gains limits)).sampling_event
      = some true ∧
    ∃ v : ℚ, (pidGetValue (pidOnTimerCallback (pidInit setpoint gains limits))
      (some sv)).1 = .ok v := by
  refine ⟨rfl, ?_, rfl, ?_⟩
  · simp [pidGetValue, pidInit]
  · simp only [pidGetValue, pidOnTimerCallback, pydiv, if_neg hdt]
    exact ⟨_, rfl⟩

/-- Witness for `C10_pid_fresh_attribute` at a default-configured PID
controller and a sensor with `elapsed_time = 1`. -/
theorem C10_pid_fresh_attribute_witness :
    (pidInit 35 none none).sampling_event = none ∧
    pidGetValue (pidInit 35 none none) (some ⟨0, 1⟩)
      = (.error .attributeError, pidInit 35 none none) ∧
    (pidOnTimerCallback (pidInit 35 none none)).sampling_event = some true ∧
    ∃ v : ℚ, (pidGetValue (pidOnTimerCallback (pidInit 35 none none))
      (some ⟨0, 1⟩)).1 = .ok v :=
  C10_pid_fresh_attribute 35 none none ⟨0, 1⟩ (by norm_num)

/-! ### `Timer` (src/reactors_czlab/core/utils.py, lines 13-95) -/

/-- Timing fields of a `Timer` object.  `elapsed_time` is an `Option`
because it is first assigned inside `callback`.  The subscriber lists
are omitted here; notification is modelled at the call sites that need
it. -/
structure TimerObj where
  interval : ℚ
  last_time : ℚ
  elapsed_time : Option ℚ
  deriving DecidableEq, Repr

/-- `Timer.__init__(interval)` at monotonic time `now`. -/
def timerInit (interval now : ℚ) : TimerObj :=
  { interval := interval, last_time := now, elapsed_time := none }

/-- The `interval` property setter (utils.py lines 42-49): stores the
new interval and resets `last_time` to the current time. -/
def timerSetInterval (t : TimerObj) (interval now : ℚ) : TimerObj :=
  { t with interval := interval, last_time := now }

/-- `Timer.callback()` (utils.py lines 84-95) at monotonic time `now`:
stores the elapsed time and reports whether the interval strictly
elapsed, in which case `last_time` advances and every subscriber is
notified. -/
def timerCallback (t : TimerObj) (now : ℚ) : TimerObj × Bool :=
  let elapsed := now - t.last_time
  let t1 := { t with elapsed_time := some elapsed }
  if t.interval < elapsed then ({ t1 with last_time := now }, true)
  else (t1, false)

/-- Python attribute lookup `timer.is_elapsed(...)`: the `Timer` class
defines `callback`, `async_callback` and subscriber management, but no
attribute named `is_elapsed`, so the lookup raises `AttributeError`
(no method of that name exists anywhere in the repository). -/
def timerIsElapsed (t : TimerObj) : Except PyErr TimerObj :=
  .error .attributeError

/-! ### `_TimerControl` (src/reactors_czlab/core/control.py, 138-209) -/

/-- State of a `_TimerControl` object. -/
structure TimerControlState where
  time_on : ℚ
  time_off : ℚ
  value_on : ℚ
  value : ℚ
  min_val : ℚ
  max_val : ℚ
  timer : TimerObj
  is_on : Bool
  sampling_event : Bool
  deriving DecidableEq, Repr

/-- `_TimerControl.__init__(time_on, time_off, value_on, limits=None)`
at monotonic time `now`: output starts at `value_on`, default limits
`[0, 4095]`, a fresh sub-timer of interval `time_on` (the controller
subscribes itself to it), `_is_on = False`, `_sampling_event = True`. -/
def timerControlInit (time_on time_off value_on now : ℚ) :
    TimerControlState :=
  { time_on := time_on, time_off := time_off, value_on := value_on,
    value := value_on, min_val := 0, max_val := 4095,
    timer := timerInit time_on now, is_on := false, sampling_event := true }

/-- `_TimerControl.get_value(sensor)` (control.py lines 192-209) at
monotonic time `now`.  Its first statement is
`self.timer.is_elapsed()`; the toggle logic below it is reproduced
faithfully but is unreachable because that attribute lookup raises. -/
def timerControlGetValue (s : TimerControlState) (now : ℚ) :
    Except PyErr ℚ × TimerControlState :=
  match timerIsElapsed s.timer with
  | .error e => (.error e, s)
  | .ok t1 =>
    let s1 := { s with timer := t1 }
    if s1.sampling_event then
      let s2 := { s1 with sampling_event := false }
      if s2.is_on then
        let s3 := { s2 with timer := timerSetInterval s2.timer s2.time_off now,
                            value := 0, is_on := false }
        (.ok s3.value, s3)
      else
        let s3 := { s2 with timer := timerSetInterval s2.timer s2.time_on now,
                            is_on := true, value := s2.value_on }
        (.ok s3.value, s3)
    else (.ok s1.value, s1)

/-- C3: the claim describes the duty-cycle trace of
`_TimerControl(1, 3, 4000)` created at `t = 0` (4000 at `t=0.5`, 0 at
`t=1.5`, 4000 at `t=4.5`, 0 at `t=5.5`).  The initial state is as
claimed (`is_on = false`, `sampling_event = true`), but every
`get_value` call — the one at `t = 0.5` included — raises
`AttributeError` and leaves the controller unchanged, because its first
statement calls `self.timer.is_elapsed()` and the `Timer` class has no
such method; no evaluation ever returns 4000. -/
theorem C3_timer_control_trace :
    (timerControlInit 1 3 4000 0).is_on = false ∧
    (timerControlInit 1 3 4000 0).sampling_event = true ∧
    (∀ (s : TimerControlState) (now : ℚ),
        timerControlGetValue s now = (.error .attributeError, s)) :=
  ⟨rfl, rfl, fun s now => rfl⟩

/-! ### `HamiltonSensor.read` (src/reactors_czlab/core/sensor.py) -/

/-- A sensor `Channel` (utils.py dataclass), restricted to the fields
`read` touches: the symbolic register name and the latest value. -/
structure Channel where
  register : String
  value : ℚ
  deriving DecidableEq, Repr

/-- `HamiltonSensor.REGISTERS` (sensor.py lines 160-176): symbolic
register names mapped to their 0-based start address and register
count. -/
def REGISTERS : List (String × ℕ × ℕ) :=
  [("operator", 4287, 4), ("address", 4095, 2), ("baudrate", 4101, 2),
   ("pmc1", 2089, 10), ("pmc6", 2409, 10),
   ("cp1_info", 5151, 6), ("cp2_info", 5183, 6), ("cp6_info", 5311, 6),
   ("cp1_status", 5157, 6), ("cp2_status", 5189, 6), ("cp6_status", 5317, 6),
   ("cp1", 5161, 2), ("cp2", 5193, 2), ("quality", 4871, 2)]

/-- State of a `HamiltonSensor` as far as `read()` is concerned. -/
structure HamiltonState where
  address : ℕ
  channels : List Channel
  timer : TimerObj
  sampling_event : Bool
  deriving DecidableEq, Repr

/-- One channel body of the `read` loop (sensor.py lines 305-320): look
up the channel's register block in `REGISTERS` (an unknown name raises
`KeyError`, which the loop does not catch), issue the Modbus read over
the bus, take words 2 and 3 of the result (a result shorter than four
words raises `IndexError`, uncaught) and decode a float into the
channel's value; a `ModbusError` is caught and the channel value is set
to the sentinel `-0.111`.  `bus` abstracts
`ModbusHandler.process_request`/`get_result` (its error outcome is a
`ModbusError`) and `decode` abstracts the float codec. -/
def hamiltonReadChannel (bus : ℕ → ℕ → ℕ → Except Unit (List ℕ))
    (decode : ℕ → ℕ → ℚ) (addr : ℕ) (chn : Channel) : Except PyErr Channel :=
  match REGISTERS.find? (fun r => r.1 == chn.register) with
  | none => .error .keyError
  | some (_, reg, num) =>
    match bus addr reg num with
    | .error _ => .ok { chn with value := -(111/1000) }
    | .ok result =>
      match result.get? 2, result.get? 3 with
      | some low, some high => .ok { chn with value := decode low high }
      | _, _ => .error .indexError

/-- The `for chn in self.channels` loop of `read`: an uncaught
exception aborts the traversal, retaining the updates already made. -/
def hamiltonReadLoop (bus : ℕ → ℕ → ℕ → Except Unit (List ℕ))
    (decode : ℕ → ℕ → ℚ) (addr : ℕ) :
    List Channel → Except PyErr Unit × List Channel
  | [] => (.ok (), [])
  | chn :: rest =>
    match hamiltonReadChannel bus decode addr chn with
    | .error e => (.error e, chn :: rest)
    | .ok chn1 =>
      let r := hamiltonReadLoop bus decode addr rest
      (r.1, chn1 :: r.2)

/-- `HamiltonSensor.read()` (sensor.py lines 294-320).  Its first
statement is `self.timer.is_elapsed()`; the sampling-event check and
the channel loop below are reproduced faithfully but are unreachable
because that attribute lookup raises. -/
def hamiltonRead (bus : ℕ → ℕ → ℕ → Except Unit (List ℕ))
    (decode : ℕ → ℕ → ℚ) (s : HamiltonState) :
    Except PyErr Unit × HamiltonState :=
  match timerIsElapsed s.timer with
  | .error e => (.error e, s)
  | .ok t1 =>
    let s1 := { s with timer := t1 }
    if s1.sampling_event then
      let s2 := { s1 with sampling_event := false }
      let r := hamiltonReadLoop bus decode s2.address s2.channels
      (r.1, { s2 with channels := r.2 })
    else (.ok (), s1)

/-- C2: the claim states that `HamiltonSensor.read()` returns normally
whenever the sampling event is due, decoding each channel or writing
the sentinel `-0.111` on error.  In the code the first statement of
`read` calls `self.timer.is_elapsed()`, and the `Timer` class defines
no such method, so every `read()` call raises `AttributeError` before
touching any channel and leaves the sensor unchanged. -/
theorem C2_hamilton_read_raises (bus : ℕ → ℕ → ℕ → Except Unit (List ℕ))
    (decode : ℕ → ℕ → ℚ) (s : HamiltonState) :
    hamiltonRead bus decode s = (.error .attributeError, s) :=
  rfl

/-! ### `_OnBoundariesControl` (src/reactors_czlab/core/control.py,
lines 212-303) -/

/-- State of an `_OnBoundariesControl` object. -/
structure OnBoundariesState where
  lower_bound : ℚ
  upper_bound : ℚ
  value_on : ℚ
  backwards : Bool
  value : ℚ
  min_val : ℚ
  max_val : ℚ
  sampling_event : Bool
  deriving DecidableEq, Repr

/-- `_OnBoundariesControl.__init__(lower_bound, upper_bound, value,
limits=None, backwards=False)`: `_sampling_event = False`, output
starts at `value` when `backwards` else `0`, default limits
`[0, 4095]`. -/
def onBoundariesInit (lower_bound upper_bound value : ℚ)
    (backwards : Bool := false) : OnBoundariesState :=
  { lower_bound := lower_bound, upper_bound := upper_bound,
    value_on := value, backwards := backwards,
    value := if backwards then value else 0,
    min_val := 0, max_val := 4095, sampling_event := false }

/-- `_Control.on_timer_callback` on an OnBoundaries controller. -/
def onBoundariesCallback (s : OnBoundariesState) : OnBoundariesState :=
  { s with sampling_event := true }

/-- `_OnBoundariesControl.get_value(sensor)` (control.py 283-303):
without a sensor it raises `AttributeError`; on a pending sampling
event it consumes the event and retriggers only on strict crossings of
the bounds, otherwise the previous output is held. -/
def onBoundariesGetValue (s : OnBoundariesState)
    (sensor : Option SensorView) : Except PyErr ℚ × OnBoundariesState :=
  match sensor with
  | none => (.error .attributeError, s)
  | some sv =>
    if s.sampling_event then
      let s1 := { s with sampling_event := false }
      let var := sv.channel0
      let s2 :=
        if var < s1.lower_bound then
          { s1 with value := if s1.backwards then 0 else s1.value_on }
        else if s1.upper_bound < var then
          { s1 with value := if s1.backwards then s1.value_on else 0 }
        else s1
      (.ok s2.value, s2)
    else (.ok s.value, s)

/-- The spec's hysteresis scenario: before each evaluation the timer
callback marks a sampling event, then the controller is evaluated at
the next value of the reference trace. -/
def onBoundariesTrace (s : OnBoundariesState) :
    List ℚ → List (Except PyErr ℚ)
  | [] => []
  | v :: rest =>
    let r := onBoundariesGetValue (onBoundariesCallback s) (some ⟨v, 0⟩)
    r.1 :: onBoundariesTrace r.2 rest

/-- C6: hysteresis response with `backwards = false`.  On a sampling
event, evaluation yields `value_on` strictly below `lower_bound`, `0`
strictly above `upper_bound`, and holds the previous output on
`[lower_bound, upper_bound]`, bounds included; with
`lb = 1.1, ub = 2.1, value_on = 255` and channel-0 trace
`[0.0, 1.5, 2.2, 1.5, 1.0, 1.5]` the output trace is
`[255, 255, 0, 0, 255, 255]`. -/
theorem C6_hysteresis :
    (∀ (s : OnBoundariesState) (sv : SensorView),
        s.sampling_event = true → s.backwards = false →
        sv.channel0 < s.lower_bound →
        (onBoundariesGetValue s (some sv)).1 = .ok s.value_on) ∧
    (∀ (s : OnBoundariesState) (sv : SensorView),
        s.sampling_event = true → s.backwards = false →
        s.lower_bound ≤ s.upper_bound → s.upper_bound < sv.channel0 →
        (onBoundariesGetValue s (some sv)).1 = .ok 0) ∧
    (∀ (s : OnBoundariesState) (sv : SensorView),
        s.sampling_event = true →
        s.lower_bound ≤ sv.channel0 → sv.channel0 ≤ s.upper_bound →
        onBoundariesGetValue s (some sv)
          = (.ok s.value, { s with sampling_event := false })) ∧
    onBoundariesTrace (onBoundariesInit (11/10) (21/10) 255)
      [0, 3/2, 11/5, 3/2, 1, 3/2]
      = [.ok 255, .ok 255, .ok 0, .ok 0, .ok 255, .ok 255] := by
  refine ⟨?_, ?_, ?_, ?_⟩
  · intro s sv hse hb hlt
    simp [onBoundariesGetValue, hse, hb, hlt]
  · intro s sv hse hb hlu hgt
    simp [onBoundariesGetValue, hse, hb, hgt, not_lt.mpr (hlu.trans hgt.le)]
  · intro s sv hse hlb hub
    simp [onBoundariesGetValue, hse, not_lt.mpr hlb, not_lt.mpr hub]
  · norm_num [onBoundariesTrace, onBoundariesCallback, onBoundariesInit,
      onBoundariesGetValue]

/-- Witness for the strict-crossing case of `C6_hysteresis` at the
concrete controller of the scenario and reference value `0`. -/
theorem C6_hysteresis_witness :
    (onBoundariesGetValue
        (onBoundariesCallback (onBoundariesInit (11/10) (21/10) 255))
        (some ⟨0, 0⟩)).1 = .ok 255 :=
  C6_hysteresis.1
    (onBoundariesCallback (onBoundariesInit (11/10) (21/10) 255)) ⟨0, 0⟩
    rfl rfl (by norm_num [onBoundariesCallback, onBoundariesInit])

/-! ### `BaseActuator` and its controller family
(src/reactors_czlab/core/actuator.py)

This module carries its own copies of the controller classes (they take
a plain `variable` argument instead of a sensor object); they are
embedded separately from the `control.py` family above. -/

/-- A controller object of the actuator module, with its full internal
state: `_ManualControl(value)`; `_TimerControl(time_on, time_off,
value)` with internal `_current_timer`, `_is_on` and `_last_time`;
`_OnBoundariesControl(lower_bound, upper_bound, value, backwards)`;
`_PidControl(setpoint, gains, limits)` with `_last_time`,
`_last_error`, `_integral_sum`. -/
inductive ActController where
  | manual (value : ℚ)
  | timer (time_on time_off value_on : ℚ) (value : ℚ)
      (current_timer : ℚ) (is_on : Bool) (last_time : ℚ)
  | onBoundaries (lower_bound upper_bound value_on : ℚ) (backwards : Bool)
      (value : ℚ)
  | pid (setpoint kp ki kd min_val max_val : ℚ)
      (last_time last_error integral_sum : ℚ)
  deriving DecidableEq, Repr

/-- The comparison Python performs for `current != new` in
`set_control_config`: each `__eq__` returns `[own designated fields] ==
other`, and since a list never equals a controller object directly, the
reflected comparison reduces to an element-wise comparison of the two
sides' field lists.  Lists of different lengths, or equal-length lists
with different `method` tags in front, compare unequal, so controllers
of different variants are never equal.  Manual compares
`[method, value]`, Timer `[method, time_on, time_off, value]`,
OnBoundaries `[method, lower_bound, upper_bound, value]` — note
`value`, the mutable output, not `value_on` — and PID `[setpoint]`
alone. -/
def actControllerEq : ActController → ActController → Bool
  | .manual v, .manual v1 => v == v1
  | .timer ton toff _ v _ _ _, .timer ton1 toff1 _ v1 _ _ _ =>
      ton == ton1 && toff == toff1 && v == v1
  | .onBoundaries lb ub _ _ v, .onBoundaries lb1 ub1 _ _ v1 =>
      lb == lb1 && ub == ub1 && v == v1
  | .pid sp _ _ _ _ _ _ _ _, .pid sp1 _ _ _ _ _ _ _ _ => sp == sp1
  | _, _ => false

/-- A `control_config` dict as matched by
`_ControlFactory.create_control`: the four recognised shapes plus a
catch-all for dictionaries matching none of them (the factory raises
`TypeError` on those). -/
inductive ControlConfig where
  | manual (value : ℚ)
  | timer (value time_on time_off : ℚ)
  | onBoundaries (lb ub value : ℚ)
  | pid (setpoint : ℚ)
  | invalid
  deriving DecidableEq, Repr

/-- `_ControlFactory.create_control(control_config)` at wall-clock time
`now` (actuator.py lines 150-175).  Manual, Timer and OnBoundaries
construct normally (Timer starts with `value = value_on`,
`_current_timer = time_on`, `_is_on = True`, `_last_time = now`;
OnBoundaries with `backwards = False` starts with `value = 0`).  The
`pid` case constructs `_PidControl(setpoint)` whose default `limits`
are the int tuple `(0, 255)`, and the `min_val`/`max_val` property
setters of this class accept only `float`
(`isinstance(min_val, float)`, actuator.py lines 444 and 454), so the
constructor raises `TypeError` before completing. -/
def actCreateControl (cfg : ControlConfig) (now : ℚ) :
    Except PyErr ActController :=
  match cfg with
  | .manual value => .ok (.manual value)
  | .timer value time_on time_off =>
      .ok (.timer time_on time_off value value time_on true now)
  | .onBoundaries lb ub value => .ok (.onBoundaries lb ub value false 0)
  | .pid _ => .error .typeError
  | .invalid => .error .typeError

/-- State of a `BaseActuator`: its controller and (for `write_output`)
the channel list of the reference sensor, `none` when
`self._reference_sensor` was never assigned. -/
structure ActuatorState where
  controller : ActController
  reference_sensor : Option (List Channel)
  deriving Repr

/-- `BaseActuator.set_control_config(control_config)` (actuator.py
lines 95-124) at time `now`.  A `TypeError` from the factory is caught
(`except TypeError`), logged, and the controller is kept.  After a
successful construction the controller is replaced only if the new one
compares unequal to the current one; the subsequent info-log f-string
references the undefined name `new_method` and raises `NameError`,
which the `except TypeError` clause does not catch, so the call's
outcome is that error — after the state update. -/
def setControlConfig (a : ActuatorState) (cfg : ControlConfig) (now : ℚ) :
    ActuatorState × Except PyErr Unit :=
  match actCreateControl cfg now with
  | .error .typeError => (a, .ok ())
  | .error e => (a, .error e)
  | .ok newC =>
      let a1 := if actControllerEq a.controller newC then a
                else { a with controller := newC }
      (a1, .error .nameError)

/-- C4: `set_control_config` is idempotent on actuator state: for every
actuator, configuration and pair of call times, the second of two
consecutive identical calls leaves the actuator state exactly as the
first call left it — the newly built controller compares equal to the
current one, the replacement is short-circuited, and the first call's
controller object (integral sum, last error, timer phase included) is
retained. -/
theorem C4_set_control_config_idempotent (a : ActuatorState)
    (cfg : ControlConfig) (t1 t2 : ℚ) :
    (setControlConfig (setControlConfig a cfg t1).1 cfg t2).1
      = (setControlConfig a cfg t1).1 := by
  have hrefl : ∀ x : ActController, actControllerEq x x = true := by
    intro x; cases x <;> simp [actControllerEq]
  cases cfg with
  | manual v =>
    simp only [setControlConfig, actCreateControl]
    by_cases h : actControllerEq a.controller (.manual v) = true
    · simp only [if_pos h]
    · simp only [if_neg h]
      simp [hrefl]
  | timer v ton toff =>
    simp only [setControlConfig, actCreateControl]
    have hswap : ∀ x : ActController,
        actControllerEq x (.timer ton toff v v ton true t2)
          = actControllerEq x (.timer ton toff v v ton true t1) := by
      intro x; cases x <;> rfl
    by_cases h : actControllerEq a.controller
        (.timer ton toff v v ton true t1) = true
    · rw [if_pos h, hswap, if_pos h]
    · simp only [if_neg h]
      simp [actControllerEq]
  | onBoundaries lb ub v =>
    simp only [setControlConfig, actCreateControl]
    by_cases h : actControllerEq a.controller
        (.onBoundaries lb ub v false 0) = true
    · simp only [if_pos h]
    · simp only [if_neg h]
      simp [hrefl]
  | pid sp => rfl
  | invalid => rfl

/-- Result of `BaseActuator.write_output()`: the value passed to the
transport `_write` and whether the missing-reference warning was
logged. -/
structure WriteRecord where
  written : ℚ
  warned : Bool
  deriving DecidableEq, Repr

/-- Python subscription `chn["value"]` on the `Channel` dataclass:
dataclasses define no `__getitem__`, so the subscript raises
`TypeError`. -/
def channelSubscript (chn : Channel) (key : String) : Except PyErr ℚ :=
  .error .typeError

/-- The body of the `try` block of `write_output` (actuator.py lines
85-87): reading `self.reference_sensor` raises `AttributeError` when no
reference sensor was ever assigned; with one assigned, `channels[0]`
raises `IndexError` on an empty channel list, and the `["value"]`
subscript on the `Channel` dataclass raises `TypeError`, so the
controller evaluation and `_write` call that follow are never
reached on that path. -/
def writeOutputBody (a : ActuatorState) : Except PyErr ℚ :=
  match a.reference_sensor with
  | none => .error .attributeError
  | some channels =>
    match channels.get? 0 with
    | none => .error .indexError
    | some chn => channelSubscript chn "value"

/-- `BaseActuator.write_output()` (actuator.py lines 83-93): the
`except AttributeError` clause catches the missing reference sensor,
logs at warning severity and writes `0`; any other exception
propagates. -/
def writeOutput (a : ActuatorState) : Except PyErr WriteRecord :=
  match writeOutputBody a with
  | .ok v => .ok { written := v, warned := false }
  | .error .attributeError => .ok { written := 0, warned := true }
  | .error e => .error e

/-- C7: for every actuator whose controller is a Hysteresis or PID
variant and whose reference sensor is not set, evaluating through the
actuator yields the missing-reference `AttributeError`, which
`write_output` handles by writing `0` to the transport and logging at
warning severity; `write_output` itself never propagates the
failure. -/
theorem C7_missing_reference (a : ActuatorState)
    (h : a.reference_sensor = none)
    (hc : (∃ lb ub v b w, a.controller = .onBoundaries lb ub v b w) ∨
        (∃ sp kp ki kd mn mx lt le isum,
          a.controller = .pid sp kp ki kd mn mx lt le isum)) :
    writeOutput a = .ok { written := 0, warned := true } := by
  simp [writeOutput, writeOutputBody, h]

/-- Witness for `C7_missing_reference` at a hysteresis-controlled
actuator without a reference sensor. -/
theorem C7_missing_reference_witness :
    writeOutput { controller := .onBoundaries 1 2 255 false 0,
                  reference_sensor := none }
      = .ok { written := 0, warned := true } :=
  C7_missing_reference _ rfl (.inl ⟨1, 2, 255, false, 0, rfl⟩)

/-! ### `set_pairing` (src/reactors_czlab/opcua/reactor.py, 106-136) -/

/-- A sensor or actuator object held in the shared reactor-state lists
(`ReactorState.sensors`, the fast-loop actuator list); only its
identity matters for the pairing operations. -/
structure PyObj where
  id : String
  deriving DecidableEq, Repr

/-- Python membership `some_string in object_list` as evaluated by the
id validation of `set_pairing`: the lists hold `Sensor`/`Actuator`
objects, `str.__eq__` against such an object is `NotImplemented`, the
objects define no `__eq__` of their own, and identity comparison of a
string with a distinct object is false — so the membership test
compares every element unsuccessfully and returns `False` for every
argument. -/
def pyStrInObjList (sid : String) (objs : List PyObj) : Bool :=
  objs.any fun _ => false

/-- Shared reactor state as accessed by `set_pairing`: the pairing
table (a dict keyed by sensor id, each value an ordered list of
`(actuator_id, channel)` pairs), the sensor objects and the fast-loop
actuator objects. -/
structure PairingState where
  sensors : List PyObj
  fast_actuators : List PyObj
  pairings : List (String × List (String × ℤ))
  deriving DecidableEq, Repr

/-- `reactor_slow.pairings[sid].append((aid, channel))`: a plain dict
subscript raises `KeyError` when `sid` has no entry; otherwise the pair
is appended to that entry's list in place. -/
def pairingsAppend (p : List (String × List (String × ℤ)))
    (sid : String) (pr : String × ℤ) :
    Except PyErr (List (String × List (String × ℤ))) :=
  if p.any fun q => q.1 == sid then
    .ok (p.map fun q => if q.1 == sid then (q.1, q.2 ++ [pr]) else q)
  else .error .keyError

/-- The `set_pairing` UA method body (opcua/reactor.py lines 106-136):
validate the ids (the membership tests of `pyStrInObjList`; on failure
raise `ua.UaStatusCodeError` — the condition tests the fast actuator
list twice, as in the source), check `(aid, channel)` against every
pairing list (on a conflict raise `ua.UaStatusCodeError`), then append
the pair to the sensor's pairing list and drop the actuator from the
fast loop (`list.remove` of a string from a list of Actuator objects
raises `ValueError`, which is caught and logged, leaving the list
unchanged).  Every raising path leaves the state untouched. -/
def setPairing (st : PairingState) (sid aid : String) (channel : ℤ) :
    Except PyErr Bool × PairingState :=
  if ¬ (pyStrInObjList sid st.sensors = true)
      ∨ ¬ (pyStrInObjList aid st.fast_actuators = true)
      ∨ ¬ (pyStrInObjList aid st.fast_actuators = true) then
    (.error .uaStatusCodeError, st)
  else
    let is_paired := st.pairings.any fun q => q.2.contains (aid, channel)
    if is_paired then (.error .uaStatusCodeError, st)
    else
      match pairingsAppend st.pairings sid (aid, channel) with
      | .error e => (.error e, st)
      | .ok p1 => (.ok true, { st with pairings := p1 })

/-- A concrete reactor state in which `("a1", 0)` is already paired to
sensor `"s1"`. -/
def conflictState : PairingState :=
  { sensors := [⟨"s1"⟩], fast_actuators := [⟨"a1"⟩],
    pairings := [("s1", [("a1", 0)])] }

/-- C8 counterexample: calling `set_pairing` for an
`(actuator, channel)` pair that already appears in a pairing list does
NOT return `false` — the call raises `ua.UaStatusCodeError` — though it
does leave the state unchanged. -/
theorem C8_counterexample :
    (setPairing conflictState "s1" "a1" 0).1 ≠ .ok false ∧
    (setPairing conflictState "s1" "a1" 0).1 = .error .uaStatusCodeError ∧
    (setPairing conflictState "s1" "a1" 0).2 = conflictState := by
  refine ⟨?_, rfl, rfl⟩
  intro h
  exact absurd h (by simp [setPairing, conflictState, pyStrInObjList])

/-- C8 amended: `set_pairing` on an already-paired `(actuator,
channel)` pair fails by raising `ua.UaStatusCodeError` rather than by
returning `false`, and it changes no state — the pairing table and the
actuator partitions are identical before and after the call; the same
atomicity holds for every validation failure.  (In this code the id
validation compares the id strings against lists of sensor/actuator
objects, which never match, so in fact every call raises before any
mutation.) -/
theorem C8_set_pairing_atomic (st : PairingState) (sid aid : String)
    (channel : ℤ) :
    setPairing st sid aid channel = (.error .uaStatusCodeError, st) := by
  simp [setPairing, pyStrInObjList]

/-! ### `DictList` (src/reactors_czlab/core/dictlist.py) -/

/-- An entity carrying an `id` attribute, as stored in a `DictList`. -/
structure Entity where
  id : String
  payload : ℤ
  deriving DecidableEq, Repr

/-- Lookup in a Python dict built from a sequence of key/value
assignments: later assignments overwrite earlier ones, so lookup
returns the value of the last assignment to the key, and a key never
assigned raises `KeyError` (modelled as `none` here, turned into the
error at the call site). -/
def pyDictLookup (assigns : List (String × ℕ)) (k : String) : Option ℕ :=
  (assigns.reverse.find? fun p => p.1 == k).map (·.2)

/-- `DictList._generate_index`: the dict comprehension
`{obj.id: k for k, obj in enumerate(self)}` — each id is assigned its
enumeration index, later (larger) indices overwriting earlier ones. -/
def generateIndex (items : List Entity) : String → Option ℕ :=
  pyDictLookup (items.enum.map fun p => (p.2.id, p.1))

/-- A `DictList`: the underlying list (filled by `list.extend`) plus
the id index built by `_generate_index` at construction time.  No
duplicate-id check is performed anywhere in the class. -/
structure DictList where
  items : List Entity
  index : String → Option ℕ

/-- `DictList.__init__(iterable)`. -/
def dictListInit (iterable : List Entity) : DictList :=
  { items := iterable, index := generateIndex iterable }

/-- `DictList.get_by_id(identifier)`: `self._dict[identifier]` raises
`KeyError` on an unknown id, then `list.__getitem__` returns the entry
at the stored index. -/
def getById (dl : DictList) (identifier : String) : Except PyErr Entity :=
  match dl.index identifier with
  | none => .error .keyError
  | some k =>
    match dl.items[k]? with
    | none => .error .indexError
    | some e => .ok e

/-- C9 counterexample: construction with two entries sharing the id
`"a"` is not rejected — both entries are retained in order — and
`get_by_id "a"` returns the second (last) entry, so ids are not unique
and the entry returned is not "the unique entry" carrying the id. -/
theorem C9_counterexample :
    (dictListInit [⟨"a", 1⟩, ⟨"a", 2⟩]).items = [⟨"a", 1⟩, ⟨"a", 2⟩] ∧
    getById (dictListInit [⟨"a", 1⟩, ⟨"a", 2⟩]) "a" = .ok ⟨"a", 2⟩ := by
  constructor
  · rfl
  · simp [getById, dictListInit, generateIndex, pyDictLookup, List.enum]

/-- The id index maps an id to the position of its last occurrence:
unfolding `generateIndex` to a search over the reversed enumeration. -/
theorem generateIndex_eq_find (items : List Entity) (i : String) :
    generateIndex items i
      = (items.enum.reverse.find? fun p => p.2.id == i).map (·.1) := by
  unfold generateIndex pyDictLookup
  rw [← List.map_reverse, List.find?_map, Option.map_map]
  rfl

/-- An index produced by `generateIndex` addresses an entry of the
list. -/
theorem generateIndex_getElem (l : List Entity) (i : String) (k : ℕ)
    (h : generateIndex l i = some k) : ∃ a, l[k]? = some a := by
  rw [generateIndex_eq_find] at h
  obtain ⟨p, hp, hpk⟩ := Option.map_eq_some'.mp h
  have hm := List.mem_of_find?_eq_some hp
  rw [List.mem_reverse] at hm
  have hget := List.mem_enum_iff_getElem?.mp hm
  exact ⟨p.2, hpk ▸ hget⟩

/-- One-step unfolding of `generateIndex` at an appended entry: the
appended entry's assignment is the latest, so it wins when its id
matches. -/
theorem generateIndex_concat (l : List Entity) (e : Entity) (i : String) :
    generateIndex (l ++ [e]) i
      = if e.id == i then some l.length else generateIndex l i := by
  rw [generateIndex_eq_find, generateIndex_eq_find, List.enum_append]
  have h1 : List.enumFrom l.length [e] = [(l.length, e)] := rfl
  rw [h1, List.reverse_concat, List.find?_cons]
  cases he : e.id == i <;> simp [he]

/-- C9 amended: `DictList` construction rejects nothing — duplicate ids
are retained and iteration preserves insertion order — and `get_by_id`
returns the entry at the LAST position carrying the id (hence the
unique such entry whenever ids are unique), raising `KeyError` when the
id is absent. -/
theorem C9_dictlist_last_occurrence (items : List Entity) (i : String) :
    (dictListInit items).items = items ∧
    getById (dictListInit items) i
      = (match items.reverse.find? (fun e => e.id == i) with
         | some e => .ok e
         | none => .error .keyError) := by
  refine ⟨rfl, ?_⟩
  induction items using List.reverseRecOn with
  | nil => rfl
  | append_singleton l e ih =>
    simp only [getById, dictListInit] at ih ⊢
    rw [generateIndex_concat, List.reverse_concat, List.find?_cons]
    cases he : e.id == i with
    | true =>
      simp [List.getElem?_concat_length]
    | false =>
      dsimp only
      rw [← ih]
      cases hgi : generateIndex l i with
      | none => rfl
      | some k =>
        obtain ⟨a, ha⟩ := generateIndex_getElem l i k hgi
        have hk : k < l.length := by
          by_contra hk
          rw [List.getElem?_eq_none (Nat.le_of_not_lt hk)] at ha
          exact Option.noConfusion ha
        have happ : (l ++ [e])[k]? = l[k]? := by
          rw [List.getElem?_append, if_pos hk]
        have hred : (if false = true then some l.length else some k)
            = some k := rfl
        rw [hred]
        dsimp only
        rw [happ]

end ReactorsCzlab
